import Mathlib

/-!
Verification development for the Container Traffic Control Firefox extension
(rule engine, navigation interceptor and data repository).

The JavaScript sources are shallowly embedded as executable Lean functions:

* `src/rule-engine.js` — `matchesPattern`, `evaluateContainerForUrl`
  (current revision: the one whose no-candidate fallback stays in the
  current container, `return targetContainer || 'No Container'`).
* `src/background.js` — `isPrivilegedURL`, `getTabInfo`, `evaluateContainer`,
  `pruneTrackingMaps` and the deduplication logic of `handleRequest`.
* `src/ctc-repository.js` — the promise-coalesced `loadContainers` /
  `_doLoadContainers` pair, modelled as a state machine whose atomic steps
  are the synchronous segments between `await` suspension points
  (JavaScript is single threaded, so each synchronous segment runs
  without interleaving).

Modelling conventions:

* JavaScript strings are Lean `String`s; `url.includes(pat)` is substring
  containment over the character list (`strContains`); `s.length` is the
  character count (all string literals involved are ASCII, where the two
  notions of length agree).
* A JavaScript `null`/`undefined` string is represented by `Option.none`
  where the code genuinely stores null (the `targetContainer` sentinel),
  and by the empty string `""` where a falsy string argument flows in
  (`currentContainerName || 'No Container'`).  The helper `jsOr` models
  the `x || d` fallback on strings (both `null` and `""` are falsy).
* `new RegExp(p).test(url)` is abstracted by an oracle
  `RegexTester : String → String → Option Bool`; `none` models the
  `RegExp` constructor throwing on an invalid expression, which the
  source catches and converts to `false`.
* JavaScript `Map`s are association lists with `Map.set` replace-or-append
  semantics (`mapSet`) and `Map.get` as `List.lookup`.
* `Date.now()` is an explicit `now : Nat` argument, one per delivered
  event (the handler reads the clock several times within one event, but
  only differences against stored stamps matter and the handler runs in
  well under a millisecond; the claims quantify over the stamp values).
-/

namespace Ctc

/-- JS `x || d` for a possibly-null string `x`: both `null` and `""` are
falsy and select the fallback `d`. -/
def jsOr : Option String → String → String
  | some s, d => if s = "" then d else s
  | none, d => d

/-- JS `s.includes(sub)`: `sub` occurs contiguously inside `s`. -/
def strContains (s sub : String) : Bool :=
  (List.range (s.data.length + 1)).any
    (fun i => (s.data.drop i).take sub.data.length == sub.data)

/-- JS `s.startsWith(pre)`. -/
def strStartsWith (s pre : String) : Bool :=
  pre.data.isPrefixOf s.data

/-- JS `s.endsWith(suf)`. -/
def strEndsWith (s suf : String) : Bool :=
  suf.data.isSuffixOf s.data

/-- Oracle for `new RegExp(p).test(url)`: `none` models the constructor
throwing on an invalid pattern, `some b` a successful test returning `b`. -/
def RegexTester : Type := String → String → Option Bool

/-- A user-authored routing rule, as stored under the `ctcRules` key
(`containerName`, `action`, `urlPattern`, `highPriority`). -/
structure Rule where
  containerName : String
  action : String
  urlPattern : String
  highPriority : Bool
deriving Repr, DecidableEq

/-- An entry of the `allowedContainers` array built by step 3 of
`evaluateContainerForUrl`: a matching rule's container name, priority flag
and original index in the rule sequence. -/
structure Candidate where
  name : String
  highPriority : Bool
  ruleIndex : Nat
deriving Repr, DecidableEq

/-- `matchesPattern(url, pattern)` from `src/rule-engine.js` (lines 10-28):
empty pattern never matches; a pattern delimited by `/` of length `> 2` is
compiled as a regular expression (a compile failure is caught and yields
`false`); anything else is a literal substring test. -/
def matchesPattern (re : RegexTester) (url pattern : String) : Bool :=
  if pattern = "" then false
  else if strStartsWith pattern "/" && strEndsWith pattern "/"
            && decide (2 < pattern.data.length) then
    (re (String.mk ((pattern.data.drop 1).dropLast)) url).getD false
  else strContains url pattern

/-- Step 1 and 2 of `evaluateContainerForUrl`: initialise the target to
`currentContainerName || 'No Container'` and null it out when the current
container has `allow_only` rules none of which match the URL. -/
def computeTarget (re : RegexTester) (url currentContainerName : String)
    (rules : List Rule) : Option String :=
  let targetContainer := jsOr (some currentContainerName) "No Container"
  if targetContainer ≠ "No Container" then
    let containerRules := rules.filter (fun rule => rule.containerName == targetContainer)
    let hasAllowOnlyRules := containerRules.any (fun rule => rule.action == "allow_only")
    if hasAllowOnlyRules then
      let matchesAnyRule := containerRules.any (fun rule => matchesPattern re url rule.urlPattern)
      if matchesAnyRule then some targetContainer else none
    else some targetContainer
  else some targetContainer

/-- Step 3 of `evaluateContainerForUrl`: scan the rule sequence in order and
record a candidate for every rule whose pattern matches the URL, carrying
the rule's original index. -/
def allowedContainers (re : RegexTester) (url : String) (rules : List Rule) :
    List Candidate :=
  rules.enum.filterMap (fun p =>
    if matchesPattern re url p.2.urlPattern then
      some { name := p.2.containerName, highPriority := p.2.highPriority, ruleIndex := p.1 }
    else none)

/-- Ascending comparison on the original rule index, the order used by the
`sort((a, b) => a.ruleIndex - b.ruleIndex)` calls of step 4. -/
def ruleIndexLE (a b : Candidate) : Prop := a.ruleIndex ≤ b.ruleIndex

instance : DecidableRel ruleIndexLE := fun a b => Nat.decLe a.ruleIndex b.ruleIndex

instance : IsTotal Candidate ruleIndexLE := ⟨fun a b => Nat.le_total a.ruleIndex b.ruleIndex⟩

instance : IsTrans Candidate ruleIndexLE := ⟨fun _ _ _ h h2 => Nat.le_trans h h2⟩

/-- The `sort((a, b) => a.ruleIndex - b.ruleIndex)` calls of step 4:
ascending sort on the original rule index (any comparison sort computes
the same list here, since candidate indices are pairwise distinct). -/
def sortByRuleIndex (cs : List Candidate) : List Candidate :=
  cs.insertionSort ruleIndexLE

/-- The guard of step 4's first return:
`targetContainer && allowedContainers.some(c => c.name === targetContainer)`
(a null or empty target is falsy). -/
def stayEligible : Option String → List Candidate → Bool
  | some t, allowed => t != "" && allowed.any (fun c => c.name == t)
  | none, _ => false

theorem stayEligible_some (t : String) (allowed : List Candidate) :
    stayEligible (some t) allowed = (t != "" && allowed.any (fun c => c.name == t)) :=
  rfl

/-- The tail of step 4: high-priority candidates first (sorted by rule
index), then any candidate (sorted by rule index), then
`targetContainer || 'No Container'`. -/
def selectFallback (targetContainer : Option String) (allowed : List Candidate) :
    String :=
  match sortByRuleIndex (allowed.filter (fun c => c.highPriority)) with
  | c :: _ => c.name
  | [] =>
    match sortByRuleIndex allowed with
    | c :: _ => c.name
    | [] => jsOr targetContainer "No Container"

/-- Step 4 of `evaluateContainerForUrl`: stay put when the (non-null,
non-empty) target has a matching candidate, otherwise fall through to the
priority and order based selection. -/
def selectContainer (targetContainer : Option String) (allowed : List Candidate) :
    String :=
  match targetContainer with
  | some t =>
    if t != "" && allowed.any (fun c => c.name == t) then t
    else selectFallback (some t) allowed
  | none => selectFallback none allowed

/-- `evaluateContainerForUrl(url, currentContainerName, rules, containerMap)`
from `src/rule-engine.js`.  The `containerMap` parameter is accepted and,
exactly as in the source, never consulted. -/
def evaluateContainerForUrl (re : RegexTester) (url currentContainerName : String)
    (rules : List Rule) (_containerMap : List (String × String)) : String :=
  selectContainer (computeTarget re url currentContainerName rules)
    (allowedContainers re url rules)

/-! ## Background script (`src/background.js`) -/

/-- `isPrivilegedURL(url)`. -/
def isPrivilegedURL (url : String) : Bool :=
  strStartsWith url "about:" || strStartsWith url "moz-extension:"
    || strStartsWith url "chrome:" || strStartsWith url "resource:"

/-- JS `Map.set`: replace the value of an existing key in place, otherwise
append the new entry. -/
def mapSet {α : Type} (m : List (String × α)) (k : String) (v : α) :
    List (String × α) :=
  if m.any (fun p => p.1 == k) then
    m.map (fun p => if p.1 == k then (k, v) else p)
  else m ++ [(k, v)]

/-- `evaluateContainer(url, currentCookieStoreId)` from `src/background.js`
(lines 369-404), with the repository's maps and rules passed explicitly.
The JS `Array.isArray(rules)` guard is vacuous in the typed model. -/
def evaluateContainer (re : RegexTester) (url currentCookieStoreId : String)
    (containerMap cookieStoreToNameMap : List (String × String))
    (rules : List Rule) : String :=
  if containerMap.length ≤ 1 then currentCookieStoreId
  else
    let currentContainerName :=
      jsOr (cookieStoreToNameMap.lookup currentCookieStoreId) "No Container"
    let targetContainerName :=
      evaluateContainerForUrl re url currentContainerName rules containerMap
    if targetContainerName = "No Container" then "firefox-default"
    else jsOr (containerMap.lookup targetContainerName) "firefox-default"

/-- Dedup expiry tuning constants of `src/background.js`. -/
def EXPIRY_REDIRECT_MS : Nat := 2000

/-- Tab+URL processing cooldown (1 second). -/
def EXPIRY_TAB_REQUEST_MS : Nat := 1000

/-- Container switch cooldown (1.5 seconds). -/
def EXPIRY_CONTAINER_SWITCH_MS : Nat := 1500

/-- Map size threshold that triggers `pruneTrackingMaps`. -/
def CLEANUP_SIZE_THRESHOLD : Nat := 100

/-- The three time-stamped dedup tables of the background script. -/
structure BgState where
  recentRedirections : List (String × Nat)
  recentTabRequests : List (String × Nat)
  recentContainerSwitches : List (String × Nat)
deriving Repr, DecidableEq

/-- The externally visible outcome of one `handleRequest` invocation:
pass the navigation through unmodified (`return {}`), or create a tab for
the URL in the target container, remove the original tab and cancel the
request (`return { cancel: true }`). -/
inductive NavAction where
  | passThrough : NavAction
  | cancelAndRelocate : String → String → Bool → NavAction
deriving Repr, DecidableEq

/-- The JS dedup guard `last && now - last < expiry`: a stored stamp of `0`
is falsy and does not suppress (faithful to the source; `Date.now()` is
never `0` in practice). `Nat` subtraction truncates at `0`, matching the
JS comparison for `now < last` as well (a negative difference is below the
window). -/
def dedupHit (m : List (String × Nat)) (k : String) (now expiry : Nat) : Bool :=
  match m.lookup k with
  | some last => last != 0 && decide (now - last < expiry)
  | none => false

/-- One table sweep of `pruneTrackingMaps`: drop entries strictly older
than the expiry window. -/
def pruneMap (m : List (String × Nat)) (now expiry : Nat) :
    List (String × Nat) :=
  m.filter (fun p => decide (now - p.2 ≤ expiry))

/-- `pruneTrackingMaps()` from `src/background.js`. -/
def pruneTrackingMaps (st : BgState) (now : Nat) : BgState :=
  { recentRedirections := pruneMap st.recentRedirections now EXPIRY_REDIRECT_MS
    recentTabRequests := pruneMap st.recentTabRequests now EXPIRY_TAB_REQUEST_MS
    recentContainerSwitches :=
      pruneMap st.recentContainerSwitches now EXPIRY_CONTAINER_SWITCH_MS }

/-- `getTabInfo(tabId)` (happy path): a negative tab id means a new tab in
the default container; otherwise the tab's cookie store id (with the
`|| 'firefox-default'` fallback) and its foreground state, both supplied
by the host and passed in as arguments here. -/
def getTabInfo (tabId : Int) (tabCookieStoreId : String) (tabActive : Bool) :
    String × Bool :=
  if tabId < 0 then ("firefox-default", true)
  else (jsOr (some tabCookieStoreId) "firefox-default", tabActive)

/-- The tail of `handleRequest` after the tab-request dedup stamp: the
URL-level dedup guard, container evaluation and — when a switch is
required and not suppressed by the container-switch cooldown — the
relocation, stamping the URL and container-switch tables first.  This
phase never modifies `recentTabRequests`. -/
def handleRequestBody (re : RegexTester)
    (containerMap cookieStoreToNameMap : List (String × String))
    (rules : List Rule) (st2 : BgState) (now : Nat) (tabId : Int) (url : String)
    (tabCookieStoreId : String) (tabActive : Bool) : BgState × NavAction :=
  if dedupHit st2.recentRedirections url now EXPIRY_REDIRECT_MS then
    (st2, NavAction.passThrough)
  else
    let info := getTabInfo tabId tabCookieStoreId tabActive
    let currentContainerName :=
      jsOr (cookieStoreToNameMap.lookup info.1) "No Container"
    let targetCookieStoreId :=
      evaluateContainer re url info.1 containerMap cookieStoreToNameMap rules
    let targetContainerName :=
      jsOr (cookieStoreToNameMap.lookup targetCookieStoreId) "No Container"
    if info.1 ≠ targetCookieStoreId then
      let containerSwitchKey := currentContainerName ++ "->" ++ targetContainerName
      if dedupHit st2.recentContainerSwitches containerSwitchKey now
          EXPIRY_CONTAINER_SWITCH_MS then
        (st2, NavAction.passThrough)
      else
        ({ st2 with
            recentRedirections := mapSet st2.recentRedirections url now
            recentContainerSwitches :=
              mapSet st2.recentContainerSwitches containerSwitchKey now },
         NavAction.cancelAndRelocate url targetCookieStoreId info.2)
    else (st2, NavAction.passThrough)

/-- The opportunistic maintenance step of `handleRequest`: sweep all three
tables when any of them has outgrown the size threshold. -/
def maybePrune (st1 : BgState) (now : Nat) : BgState :=
  if CLEANUP_SIZE_THRESHOLD < st1.recentTabRequests.length
      ∨ CLEANUP_SIZE_THRESHOLD < st1.recentRedirections.length
      ∨ CLEANUP_SIZE_THRESHOLD < st1.recentContainerSwitches.length then
    pruneTrackingMaps st1 now
  else st1

/-- `handleRequest(details)` from `src/background.js`, with the repository
snapshot (`containerMap`, `cookieStoreToNameMap`, `rules`), the tab's live
state and the clock passed explicitly.  Returns the updated dedup state
and the externally visible action.  The initialization wait of the MV3
wake-up protection only delays processing and is not part of the dedup
claims; the top-level catch never fires in the total model. -/
def handleRequest (re : RegexTester)
    (containerMap cookieStoreToNameMap : List (String × String))
    (rules : List Rule) (st : BgState) (now : Nat) (tabId : Int) (url : String)
    (tabCookieStoreId : String) (tabActive : Bool) : BgState × NavAction :=
  if isPrivilegedURL url then (st, NavAction.passThrough)
  else if tabId = -1 then (st, NavAction.passThrough)
  else if dedupHit st.recentTabRequests (toString tabId ++ "-" ++ url) now
      EXPIRY_TAB_REQUEST_MS then
    (st, NavAction.passThrough)
  else
    handleRequestBody re containerMap cookieStoreToNameMap rules
      (maybePrune
        { st with recentTabRequests :=
            mapSet st.recentTabRequests (toString tabId ++ "-" ++ url) now }
        now)
      now tabId url tabCookieStoreId tabActive

/-! ## Repository (`src/ctc-repository.js`) -/

/-- A Firefox contextual identity as returned by the inventory provider. -/
structure Identity where
  name : String
  cookieStoreId : String
deriving Repr, DecidableEq

/-- The repository's shared state.  `inFlight` is the
`_loadingContainersPromise` marker (the id of the in-flight promise);
`fetchCount` counts issued `browser.contextualIdentities.query` calls;
`nextPromiseId` generates fresh promise identities. -/
structure RepoState where
  containerMap : List (String × String)
  cookieStoreToNameMap : List (String × String)
  inFlight : Option Nat
  fetchCount : Nat
  nextPromiseId : Nat
deriving Repr, DecidableEq

/-- The container map rebuilt by a successful `_doLoadContainers`: the
permanent default entry first, then every fetched identity. -/
def buildContainerMap (ids : List Identity) : List (String × String) :=
  ids.foldl (fun m ident => mapSet m ident.name ident.cookieStoreId)
    [("No Container", "firefox-default")]

/-- The reverse map rebuilt by a successful `_doLoadContainers`. -/
def buildCookieStoreToNameMap (ids : List Identity) : List (String × String) :=
  ids.foldl (fun m ident => mapSet m ident.cookieStoreId ident.name)
    [("firefox-default", "No Container")]

/-- The synchronous prefix of `loadContainers`: if a load is already in
flight return that promise unchanged, otherwise create the promise for
this load cycle, store it in the marker and issue the underlying fetch
(the `browser.contextualIdentities.query` call starts when
`_doLoadContainers()` is invoked, inside the same synchronous segment).
Returns the promise handed to the caller. -/
def loadContainersCall (s : RepoState) : RepoState × Nat :=
  match s.inFlight with
  | some p => (s, p)
  | none =>
    ({ s with inFlight := some s.nextPromiseId
              fetchCount := s.fetchCount + 1
              nextPromiseId := s.nextPromiseId + 1 },
     s.nextPromiseId)

/-- A sequence of `n` `loadContainers` calls interleaved while no
completion runs, collecting the promise each caller receives. -/
def loadContainersCalls : Nat → RepoState → RepoState × List Nat
  | 0, s => (s, [])
  | n + 1, s =>
    let r := loadContainersCall s
    let rest := loadContainersCalls n r.1
    (rest.1, r.2 :: rest.2)

/-- The continuation of `_doLoadContainers` after the external fetch
settles: on success clear and rebuild both maps (default entry first), on
failure leave the state untouched and propagate the error. -/
def applyFetchResult (s : RepoState) (res : Except String (List Identity)) :
    RepoState × Except String Unit :=
  match res with
  | Except.ok ids =>
    ({ s with containerMap := buildContainerMap ids
              cookieStoreToNameMap := buildCookieStoreToNameMap ids },
     Except.ok ())
  | Except.error e => (s, Except.error e)

/-- Completion of the in-flight load: `_doLoadContainers` settles and the
`.finally` handler clears the in-flight marker, on success and on failure
alike.  The second component is the outcome every caller sharing the
coalesced promise observes. -/
def loadContainersComplete (s : RepoState) (res : Except String (List Identity)) :
    RepoState × Except String Unit :=
  let r := applyFetchResult s res
  ({ r.1 with inFlight := none }, r.2)

/-! ## Helper lemmas about the rule engine -/

theorem jsOr_some (s d : String) : jsOr (some s) d = if s = "" then d else s := rfl

theorem jsOr_none (d : String) : jsOr none d = d := rfl

theorem sortByRuleIndex_nil : sortByRuleIndex [] = [] := rfl

theorem sortByRuleIndex_perm (l : List Candidate) : (sortByRuleIndex l).Perm l :=
  List.perm_insertionSort ruleIndexLE l

theorem sortByRuleIndex_head_mem (l : List Candidate) (c : Candidate)
    (rest : List Candidate) (h : sortByRuleIndex l = c :: rest) : c ∈ l := by
  have hp := sortByRuleIndex_perm l
  rw [h] at hp
  exact hp.subset (List.mem_cons_self c rest)

theorem sortByRuleIndex_head_min (l : List Candidate) (c : Candidate)
    (rest : List Candidate) (h : sortByRuleIndex l = c :: rest) :
    ∀ d ∈ l, c.ruleIndex ≤ d.ruleIndex := by
  intro d hd
  have hs : List.Sorted ruleIndexLE (sortByRuleIndex l) :=
    List.sorted_insertionSort ruleIndexLE l
  have hp := sortByRuleIndex_perm l
  rw [h] at hs hp
  rcases List.mem_cons.mp (hp.symm.subset hd) with h1 | h2
  · rw [h1]
  · exact (List.sorted_cons.mp hs).1 d h2

theorem sortByRuleIndex_eq_nil (l : List Candidate) (h : sortByRuleIndex l = []) :
    l = [] := by
  have hp := sortByRuleIndex_perm l
  rw [h] at hp
  exact hp.symm.eq_nil

theorem computeTarget_empty (re : RegexTester) (url : String) (rules : List Rule) :
    computeTarget re url "" rules = some "No Container" := by
  simp [computeTarget, jsOr]

theorem computeTarget_shape (re : RegexTester) (url cur : String) (rules : List Rule) :
    computeTarget re url cur rules = none ∨
    computeTarget re url cur rules = some (if cur = "" then "No Container" else cur) := by
  by_cases hc : cur = ""
  · subst hc
    rw [computeTarget_empty]
    right
    rfl
  · rw [if_neg hc]
    simp only [computeTarget, jsOr, if_neg hc]
    split
    · split
      · split
        · exact Or.inr rfl
        · exact Or.inl rfl
      · exact Or.inr rfl
    · exact Or.inr rfl

theorem computeTarget_some_ne_empty (re : RegexTester) (url cur : String)
    (rules : List Rule) (h : computeTarget re url cur rules = some cur) : cur ≠ "" := by
  intro hc
  subst hc
  rw [computeTarget_empty] at h
  exact absurd (Option.some.inj h) (by decide)

theorem mem_allowedContainers (re : RegexTester) (url : String) (rules : List Rule)
    (c : Candidate) (h : c ∈ allowedContainers re url rules) :
    ∃ r ∈ rules, matchesPattern re url r.urlPattern = true ∧
      c.name = r.containerName ∧ c.highPriority = r.highPriority := by
  unfold allowedContainers at h
  rw [List.mem_filterMap] at h
  obtain ⟨p, hp, heq⟩ := h
  obtain ⟨i, r⟩ := p
  by_cases hm : matchesPattern re url r.urlPattern = true
  · rw [if_pos hm] at heq
    have hc := Option.some.inj heq
    obtain ⟨hlt, hx⟩ := List.mem_enum hp
    refine ⟨r, ?_, hm, ?_, ?_⟩
    · rw [hx]
      exact List.getElem_mem hlt
    · rw [← hc]
    · rw [← hc]
  · rw [if_neg hm] at heq
    exact Option.noConfusion heq

theorem selectContainer_of_eligible (t : String) (allowed : List Candidate)
    (h : stayEligible (some t) allowed = true) :
    selectContainer (some t) allowed = t := by
  have hb : (t != "" && allowed.any (fun c => c.name == t)) = true := h
  simp only [selectContainer, hb, if_true]

theorem selectContainer_of_not_eligible (target : Option String)
    (allowed : List Candidate) (h : stayEligible target allowed = false) :
    selectContainer target allowed = selectFallback target allowed := by
  cases target with
  | none => rfl
  | some t =>
    have hb : (t != "" && allowed.any (fun c => c.name == t)) = false := h
    simp only [selectContainer, hb, Bool.false_eq_true, if_false]

theorem selectFallback_high (target : Option String) (allowed : List Candidate)
    (hhp : ∃ c ∈ allowed, c.highPriority = true) :
    ∃ c ∈ allowed, c.highPriority = true ∧ selectFallback target allowed = c.name ∧
      ∀ d ∈ allowed, d.highPriority = true → c.ruleIndex ≤ d.ruleIndex := by
  obtain ⟨c0, hc0, hc0p⟩ := hhp
  rcases h : sortByRuleIndex (allowed.filter fun c => c.highPriority) with _ | ⟨c, rest⟩
  · exfalso
    have hnil := sortByRuleIndex_eq_nil _ h
    have hmemf : c0 ∈ allowed.filter (fun c => c.highPriority) :=
      List.mem_filter.mpr ⟨hc0, hc0p⟩
    rw [hnil] at hmemf
    exact absurd hmemf (List.not_mem_nil c0)
  · have hm := List.mem_filter.mp (sortByRuleIndex_head_mem _ _ _ h)
    refine ⟨c, hm.1, hm.2, ?_, ?_⟩
    · unfold selectFallback
      rw [h]
    · intro d hd hdp
      exact sortByRuleIndex_head_min _ _ _ h d (List.mem_filter.mpr ⟨hd, hdp⟩)

theorem selectFallback_first (target : Option String) (allowed : List Candidate)
    (hnohp : ∀ c ∈ allowed, c.highPriority = false) (hne : allowed ≠ []) :
    ∃ c ∈ allowed, selectFallback target allowed = c.name ∧
      ∀ d ∈ allowed, c.ruleIndex ≤ d.ruleIndex := by
  have hfilter : allowed.filter (fun c => c.highPriority) = [] := by
    rw [List.filter_eq_nil_iff]
    intro a ha
    simp [hnohp a ha]
  rcases h : sortByRuleIndex allowed with _ | ⟨c, rest⟩
  · exact absurd (sortByRuleIndex_eq_nil _ h) hne
  · refine ⟨c, sortByRuleIndex_head_mem _ _ _ h, ?_, sortByRuleIndex_head_min _ _ _ h⟩
    unfold selectFallback
    rw [hfilter, sortByRuleIndex_nil, h]

theorem selectFallback_cases (target : Option String) (allowed : List Candidate) :
    (∃ c ∈ allowed, selectFallback target allowed = c.name)
    ∨ selectFallback target allowed = jsOr target "No Container" := by
  unfold selectFallback
  rcases h1 : sortByRuleIndex (allowed.filter fun c => c.highPriority) with _ | ⟨c, rest⟩
  · rcases h2 : sortByRuleIndex allowed with _ | ⟨c, rest⟩
    · right
      rfl
    · left
      exact ⟨c, sortByRuleIndex_head_mem _ _ _ h2, rfl⟩
  · left
    have hm := sortByRuleIndex_head_mem _ _ _ h1
    exact ⟨c, (List.mem_filter.mp hm).1, rfl⟩

/-- Regex oracle used by the concrete witnesses: it reports every delimited
pattern as an invalid regular expression (the witnesses below only use
literal-mode patterns, for which the oracle is never consulted). -/
def reNone : RegexTester := fun _ _ => none

/-! ## C1: stay-put wins once eligible -/

/-- C1: for every url, current container, rules and registry, if the
target left by the restriction check equals the current container name and
some candidate (a rule whose pattern matches the url) carries that very
name, then `evaluateContainerForUrl` returns the current container name —
regardless of the other candidates' `highPriority` flags or positions. -/
theorem stay_put_wins (re : RegexTester) (url cur : String) (rules : List Rule)
    (cm : List (String × String))
    (htarget : computeTarget re url cur rules = some cur)
    (hcand : (allowedContainers re url rules).any (fun c => c.name == cur) = true) :
    evaluateContainerForUrl re url cur rules cm = cur := by
  have hne : cur ≠ "" := computeTarget_some_ne_empty re url cur rules htarget
  unfold evaluateContainerForUrl
  rw [htarget]
  apply selectContainer_of_eligible
  rw [stayEligible_some, hcand]
  simp [hne]

/-- Rule list of the C1 witness: an earlier, high-priority candidate for a
different container must not beat the eligible current container. -/
def rulesC1 : List Rule :=
  [{ containerName := "Personal", action := "open", urlPattern := "github.com",
     highPriority := true },
   { containerName := "Work", action := "open", urlPattern := "github.com",
     highPriority := false }]

/-- C1 witness: concrete instance of `stay_put_wins`. -/
theorem stay_put_wins_witness :
    evaluateContainerForUrl reNone "https://github.com" "Work" rulesC1 [] = "Work" :=
  stay_put_wins reNone "https://github.com" "Work" rulesC1 [] (by decide) (by decide)

/-! ## C2: high priority first, then authoring order -/

/-- C2: when the current container is ineligible (the stay-put guard
fails: the target is null, or no candidate carries its name), the result
is the `containerName` of the high-priority candidate with the smallest
original rule index when one exists, and otherwise of the candidate with
the smallest original rule index — so a high-priority candidate outranks
every non-high-priority one irrespective of sequence order, and within a
tier the first-authored rule wins. -/
theorem priority_then_order_selection (re : RegexTester) (url cur : String)
    (rules : List Rule) (cm : List (String × String))
    (hinel : stayEligible (computeTarget re url cur rules)
        (allowedContainers re url rules) = false) :
    ((∃ c ∈ allowedContainers re url rules, c.highPriority = true) →
      ∃ c ∈ allowedContainers re url rules, c.highPriority = true ∧
        evaluateContainerForUrl re url cur rules cm = c.name ∧
        ∀ d ∈ allowedContainers re url rules, d.highPriority = true →
          c.ruleIndex ≤ d.ruleIndex)
    ∧ ((∀ c ∈ allowedContainers re url rules, c.highPriority = false) →
        allowedContainers re url rules ≠ [] →
      ∃ c ∈ allowedContainers re url rules,
        evaluateContainerForUrl re url cur rules cm = c.name ∧
        ∀ d ∈ allowedContainers re url rules, c.ruleIndex ≤ d.ruleIndex) := by
  have hsel : evaluateContainerForUrl re url cur rules cm
      = selectFallback (computeTarget re url cur rules) (allowedContainers re url rules) := by
    unfold evaluateContainerForUrl
    exact selectContainer_of_not_eligible _ _ hinel
  constructor
  · intro hhp
    obtain ⟨c, hc, hcp, heq, hmin⟩ :=
      selectFallback_high (computeTarget re url cur rules) _ hhp
    exact ⟨c, hc, hcp, by rw [hsel, heq], hmin⟩
  · intro hnohp hne
    obtain ⟨c, hc, heq, hmin⟩ :=
      selectFallback_first (computeTarget re url cur rules) _ hnohp hne
    exact ⟨c, hc, by rw [hsel, heq], hmin⟩

/-- Rule list of the C2 witness: the high-priority rule is authored after
a non-priority rule for the same pattern, yet wins. -/
def rulesC2 : List Rule :=
  [{ containerName := "Personal", action := "open", urlPattern := "github.com",
     highPriority := false },
   { containerName := "Work", action := "open", urlPattern := "github.com",
     highPriority := true }]

/-- C2 witness: concrete instance of `priority_then_order_selection`. -/
theorem priority_then_order_selection_witness :
    ∃ c ∈ allowedContainers reNone "https://github.com" rulesC2,
      c.highPriority = true ∧
      evaluateContainerForUrl reNone "https://github.com" "No Container" rulesC2 [] = c.name ∧
      ∀ d ∈ allowedContainers reNone "https://github.com" rulesC2,
        d.highPriority = true → c.ruleIndex ≤ d.ruleIndex :=
  (priority_then_order_selection reNone "https://github.com" "No Container" rulesC2 []
    (by decide)).1 (by decide)

/-! ## C3: restriction expulsion -/

/-- C3 evaluated at the failing input: the repository's options UI and its
own unit test encode the restricted kind as the action string
`"restricted"` (see `test/rule-engine-test.js`, which expects this input
to be expelled to `"No Container"`), but `evaluateContainerForUrl` only
recognises the stale string `"allow_only"` in its restriction check, so
the navigation stays in the current container and the claimed expulsion
never happens. -/
theorem restricted_rule_does_not_expel :
    evaluateContainerForUrl reNone "https://github.com" "Work"
      [{ containerName := "Work", action := "restricted", urlPattern := "company.com",
         highPriority := false }] [] = "Work" := by decide

/-! ## C4: zero-candidate fallback -/

/-- C4: with zero candidates (no rule pattern matches the url), a current
container that survives the restriction check is returned unchanged (the
navigation is not forced back to the default container), and an absent
current container yields the default name `"No Container"`. -/
theorem no_candidate_fallback (re : RegexTester) (url cur : String)
    (rules : List Rule) (cm : List (String × String))
    (hnone : allowedContainers re url rules = []) :
    (computeTarget re url cur rules = some cur →
      evaluateContainerForUrl re url cur rules cm = cur)
    ∧ (cur = "" → evaluateContainerForUrl re url cur rules cm = "No Container") := by
  constructor
  · intro ht
    have hne : cur ≠ "" := computeTarget_some_ne_empty re url cur rules ht
    unfold evaluateContainerForUrl
    rw [ht, hnone]
    simp [selectContainer, selectFallback, sortByRuleIndex_nil, jsOr, hne]
  · intro hc
    subst hc
    unfold evaluateContainerForUrl
    rw [computeTarget_empty, hnone]
    simp [selectContainer, selectFallback, sortByRuleIndex_nil, jsOr]

/-- Rule list of the C4 witness: rules exist but none match the url. -/
def rulesC4 : List Rule :=
  [{ containerName := "Work", action := "open", urlPattern := "company.com",
     highPriority := false },
   { containerName := "Personal", action := "open", urlPattern := "facebook.com",
     highPriority := false }]

/-- C4 witness: concrete instance of `no_candidate_fallback`. -/
theorem no_candidate_fallback_witness :
    evaluateContainerForUrl reNone "https://github.com" "Personal" rulesC4 [] = "Personal" :=
  (no_candidate_fallback reNone "https://github.com" "Personal" rulesC4 []
    (by decide)).1 (by decide)

/-! ## C6: the pattern matcher never raises -/

/-- C6: `matchesPattern` is a total function (by construction in this
model); an empty pattern returns `false`, and a delimited pattern
(enclosed in `/`, length `> 2`) whose inner text fails to compile as a
regular expression (the oracle returns `none`, modelling the caught
`RegExp` exception) is treated as no match instead of propagating an
error. -/
theorem matches_pattern_safe (re : RegexTester) (url p : String)
    (hs : strStartsWith p "/" = true) (he : strEndsWith p "/" = true)
    (hl : 2 < p.data.length)
    (hbad : re (String.mk ((p.data.drop 1).dropLast)) url = none) :
    matchesPattern re url "" = false ∧ matchesPattern re url p = false := by
  constructor
  · simp [matchesPattern]
  · have hpne : ¬(p = "") := by
      intro hp
      rw [hp] at hl
      exact absurd hl (by decide)
    unfold matchesPattern
    rw [if_neg hpne, if_pos (by rw [hs, he]; simpa using hl), hbad]
    rfl

/-- C6 witness: the delimited pattern `"/(/"` has the invalid inner
expression `"("`; the oracle rejecting it yields no match. -/
theorem matches_pattern_safe_witness :
    matchesPattern reNone "https://x" "" = false
    ∧ matchesPattern reNone "https://x" "/(/" = false :=
  matches_pattern_safe reNone "https://x" "/(/" (by decide) (by decide) (by decide) rfl

/-! ## C10: the result is always a well-defined container name -/

/-- C10: for every input, `evaluateContainerForUrl` returns a (non-null —
its result type is `String`, the null sentinel is confined to the internal
target) name that is either the current container's name, the
`containerName` of some rule whose pattern matches the url, or the default
name `"No Container"`. -/
theorem evaluate_result_provenance (re : RegexTester) (url cur : String)
    (rules : List Rule) (cm : List (String × String)) :
    evaluateContainerForUrl re url cur rules cm = cur
    ∨ (∃ r ∈ rules, matchesPattern re url r.urlPattern = true ∧
        evaluateContainerForUrl re url cur rules cm = r.containerName)
    ∨ evaluateContainerForUrl re url cur rules cm = "No Container" := by
  rcases hsel : computeTarget re url cur rules with _ | t
  · have hres : evaluateContainerForUrl re url cur rules cm
        = selectFallback none (allowedContainers re url rules) := by
      unfold evaluateContainerForUrl
      rw [hsel]
      rfl
    rcases selectFallback_cases none (allowedContainers re url rules) with ⟨c, hc, heq⟩ | heq
    · obtain ⟨r, hr, hm, hname, _⟩ := mem_allowedContainers _ _ _ _ hc
      exact Or.inr (Or.inl ⟨r, hr, hm, by rw [hres, heq, hname]⟩)
    · exact Or.inr (Or.inr (by rw [hres, heq, jsOr_none]))
  · have hval : t = if cur = "" then "No Container" else cur := by
      rcases computeTarget_shape re url cur rules with h | h
      · rw [hsel] at h
        exact Option.noConfusion h
      · rw [hsel] at h
        exact Option.some.inj h
    by_cases helig : stayEligible (some t) (allowedContainers re url rules) = true
    · have hres : evaluateContainerForUrl re url cur rules cm = t := by
        unfold evaluateContainerForUrl
        rw [hsel]
        exact selectContainer_of_eligible _ _ helig
      rw [hres, hval]
      by_cases hc : cur = ""
      · rw [if_pos hc]
        exact Or.inr (Or.inr rfl)
      · rw [if_neg hc]
        exact Or.inl rfl
    · have hfalse : stayEligible (some t) (allowedContainers re url rules) = false :=
        Bool.eq_false_iff.mpr helig
      have hres : evaluateContainerForUrl re url cur rules cm
          = selectFallback (some t) (allowedContainers re url rules) := by
        unfold evaluateContainerForUrl
        rw [hsel]
        exact selectContainer_of_not_eligible _ _ hfalse
      rcases selectFallback_cases (some t) (allowedContainers re url rules) with
        ⟨c, hc, heq⟩ | heq
      · obtain ⟨r, hr, hm, hname, _⟩ := mem_allowedContainers _ _ _ _ hc
        exact Or.inr (Or.inl ⟨r, hr, hm, by rw [hres, heq, hname]⟩)
      · rw [hres, heq, hval]
        by_cases hc : cur = ""
        · rw [if_pos hc]
          exact Or.inr (Or.inr (by simp [jsOr]))
        · rw [if_neg hc]
          exact Or.inl (by simp [jsOr, hc])

/-! ## C5: rules naming a deleted container -/

/-- Rule list of the C5 counterexample: the first rule names a container
absent from the registry, the second a live one. -/
def rulesC5 : List Rule :=
  [{ containerName := "Dead", action := "open", urlPattern := "x", highPriority := false },
   { containerName := "Work", action := "open", urlPattern := "x", highPriority := false }]

/-- Registry (name to cookie store id) for the C5 and C9 scenarios; it has
no entry for `"Dead"`. -/
def registryC5 : List (String × String) :=
  [("No Container", "firefox-default"), ("Work", "work-id")]

/-- Reverse registry (cookie store id to name) for the C5 and C9
scenarios. -/
def reverseC5 : List (String × String) :=
  [("firefox-default", "No Container"), ("work-id", "Work")]

/-- C5 counterexample: a rule whose `containerName` (here `"Dead"`) is
missing from the registry still produces a candidate during evaluation
(`evaluateContainerForUrl` never consults the registry), it wins the
selection, and the final cookie-store lookup in `evaluateContainer`
silently falls back to the default partition — so the navigation lands in
`"firefox-default"`, whereas with the rule absent it would land in
`"work-id"`.  The routing outcome is therefore not as if the rule were
absent. -/
theorem dead_container_counterexample :
    registryC5.lookup "Dead" = none
    ∧ (allowedContainers reNone "https://x.test/" rulesC5).map (fun c => c.name)
        = ["Dead", "Work"]
    ∧ evaluateContainer reNone "https://x.test/" "firefox-default" registryC5
        reverseC5 rulesC5 = "firefox-default"
    ∧ evaluateContainer reNone "https://x.test/" "firefox-default" registryC5
        reverseC5 (rulesC5.filter (fun r => r.containerName != "Dead")) = "work-id"
    ∧ "firefox-default" ≠ "work-id" := by decide

/-- C5 amended: a rule naming an unknown container still produces a
candidate and may win selection; whenever the name selected by the rule
engine has no registry entry, `evaluateContainer` silently routes the
navigation to the default partition `"firefox-default"` (no error is
reported; the outcome is not in general as if the rule were absent). -/
theorem dead_container_silent_default (re : RegexTester) (url curCS : String)
    (cm csn : List (String × String)) (rules : List Rule)
    (hsize : 1 < cm.length)
    (hmiss : cm.lookup (evaluateContainerForUrl re url
        (jsOr (csn.lookup curCS) "No Container") rules cm) = none) :
    evaluateContainer re url curCS cm csn rules = "firefox-default" := by
  simp only [evaluateContainer]
  rw [if_neg (by omega)]
  split
  · rfl
  · rw [hmiss, jsOr_none]

/-- C5 witness: concrete instance of `dead_container_silent_default`. -/
theorem dead_container_silent_default_witness :
    evaluateContainer reNone "https://x.test/" "firefox-default" registryC5
      reverseC5 rulesC5 = "firefox-default" :=
  dead_container_silent_default reNone "https://x.test/" "firefox-default"
    registryC5 reverseC5 rulesC5 (by decide) (by decide)

/-! ## C7: promise coalescing of the container refresh -/

theorem loadContainersCalls_inflight (n : Nat) (s : RepoState) (p : Nat)
    (h : s.inFlight = some p) :
    loadContainersCalls n s = (s, List.replicate n p) := by
  induction n with
  | zero => rfl
  | succ n ih =>
    have hcall : loadContainersCall s = (s, p) := by
      unfold loadContainersCall
      rw [h]
    simp only [loadContainersCalls, hcall]
    rw [ih]
    rfl

/-- C7: while a container refresh is in flight, every additional
`loadContainers` call returns the same in-flight promise and changes
nothing (no duplicate fetch); a burst of `n + 1` calls from an idle state
issues exactly one underlying fetch, with all callers receiving the same
promise; and completion — success or failure alike — clears the in-flight
marker so the next call starts a fresh fetch. -/
theorem load_containers_coalescing (s : RepoState) (n : Nat)
    (res : Except String (List Identity)) (h : s.inFlight = none) :
    (loadContainersCalls (n + 1) s =
      ({ s with inFlight := some s.nextPromiseId
                fetchCount := s.fetchCount + 1
                nextPromiseId := s.nextPromiseId + 1 },
       List.replicate (n + 1) s.nextPromiseId))
    ∧ (∀ (s2 : RepoState) (q : Nat), s2.inFlight = some q →
        loadContainersCalls n s2 = (s2, List.replicate n q))
    ∧ (∀ s2 : RepoState, (loadContainersComplete s2 res).1.inFlight = none) := by
  refine ⟨?_, ?_, ?_⟩
  · have hcall : loadContainersCall s =
        ({ s with inFlight := some s.nextPromiseId
                  fetchCount := s.fetchCount + 1
                  nextPromiseId := s.nextPromiseId + 1 }, s.nextPromiseId) := by
      unfold loadContainersCall
      rw [h]
    simp only [loadContainersCalls, hcall]
    rw [loadContainersCalls_inflight n _ s.nextPromiseId rfl]
    rfl
  · intro s2 q hq
    exact loadContainersCalls_inflight n s2 q hq
  · intro s2
    unfold loadContainersComplete applyFetchResult
    cases res <;> rfl

/-- Empty repository state used by the C7 witness. -/
def repoS0 : RepoState :=
  { containerMap := [], cookieStoreToNameMap := [], inFlight := none,
    fetchCount := 0, nextPromiseId := 0 }

/-- C7 witness: three concurrent callers from idle get the same promise
and one fetch. -/
theorem load_containers_coalescing_witness :
    loadContainersCalls 3 repoS0 =
      ({ repoS0 with inFlight := some 0, fetchCount := 1, nextPromiseId := 1 },
       [0, 0, 0]) :=
  (load_containers_coalescing repoS0 2 (Except.error "fetch failed") rfl).1

/-! ## C8: a failed refresh leaves the cache untouched -/

/-- C8: when the external inventory provider rejects, the completion of
the container refresh leaves both cached maps (the name to partition map
and its reverse, including the default entry) completely unchanged and
surfaces the same error to every caller of the coalesced promise; the
caches are replaced only on the success path, where they are rebuilt from
the fetched identities (default entry first). -/
theorem load_containers_failure_preserves_cache (s : RepoState) (e : String)
    (ids : List Identity) :
    ((loadContainersComplete s (Except.error e)).1.containerMap = s.containerMap
      ∧ (loadContainersComplete s (Except.error e)).1.cookieStoreToNameMap
          = s.cookieStoreToNameMap
      ∧ (loadContainersComplete s (Except.error e)).2 = Except.error e)
    ∧ ((loadContainersComplete s (Except.ok ids)).1.containerMap = buildContainerMap ids
      ∧ (loadContainersComplete s (Except.ok ids)).1.cookieStoreToNameMap
          = buildCookieStoreToNameMap ids) :=
  ⟨⟨rfl, rfl, rfl⟩, rfl, rfl⟩

/-! ## C9: tab-request deduplication -/

theorem lookup_map_replace {α : Type} (k : String) (v : α) :
    ∀ m : List (String × α), (∃ q ∈ m, q.1 = k) →
      (m.map (fun p => if p.1 == k then (k, v) else p)).lookup k = some v := by
  intro m
  induction m with
  | nil =>
    intro hex
    obtain ⟨q, hq, _⟩ := hex
    exact absurd hq (List.not_mem_nil q)
  | cons a t ih =>
    intro hex
    obtain ⟨a1, a2⟩ := a
    by_cases ha : a1 = k
    · subst ha
      rw [List.map_cons, if_pos (beq_self_eq_true a1)]
      simp only [List.lookup, beq_self_eq_true]
    · have hb1 : (a1 == k) = false := beq_eq_false_iff_ne.mpr ha
      have hb2 : (k == a1) = false := beq_eq_false_iff_ne.mpr (Ne.symm ha)
      simp only [List.map_cons, hb1, Bool.false_eq_true, if_false]
      simp only [List.lookup, hb2]
      apply ih
      obtain ⟨q, hq, hqk⟩ := hex
      rcases List.mem_cons.mp hq with h1 | h2
      · exfalso
        apply ha
        rw [← hqk, h1]
      · exact ⟨q, h2, hqk⟩

theorem lookup_append_missing {α : Type} (k : String) (v : α) :
    ∀ m : List (String × α), (∀ q ∈ m, q.1 ≠ k) →
      (m ++ [(k, v)]).lookup k = some v := by
  intro m
  induction m with
  | nil =>
    intro _
    simp [List.lookup]
  | cons a t ih =>
    intro hall
    obtain ⟨a1, a2⟩ := a
    have ha : a1 ≠ k := hall (a1, a2) (List.mem_cons_self _ _)
    have hb2 : (k == a1) = false := beq_eq_false_iff_ne.mpr (Ne.symm ha)
    simp only [List.cons_append, List.lookup, hb2]
    exact ih (fun q hq => hall q (List.mem_cons_of_mem _ hq))

theorem lookup_mapSet {α : Type} (m : List (String × α)) (k : String) (v : α) :
    (mapSet m k v).lookup k = some v := by
  unfold mapSet
  by_cases h : m.any (fun p => p.1 == k) = true
  · rw [if_pos h]
    apply lookup_map_replace k v m
    obtain ⟨q, hq, hqk⟩ := List.any_eq_true.mp h
    exact ⟨q, hq, eq_of_beq hqk⟩
  · rw [if_neg h]
    apply lookup_append_missing k v m
    intro q hq hqk
    apply h
    rw [List.any_eq_true]
    refine ⟨q, hq, ?_⟩
    rw [hqk]
    exact beq_self_eq_true k

theorem mapSet_key_val {α : Type} (m : List (String × α)) (k : String) (v w : α)
    (h : (k, w) ∈ mapSet m k v) : w = v := by
  unfold mapSet at h
  by_cases hc : m.any (fun p => p.1 == k) = true
  · rw [if_pos hc] at h
    rw [List.mem_map] at h
    obtain ⟨p, _, hpe⟩ := h
    by_cases hpk : (p.1 == k) = true
    · rw [if_pos hpk] at hpe
      exact (congrArg Prod.snd hpe).symm
    · rw [if_neg hpk] at hpe
      exfalso
      apply hpk
      rw [hpe]
      exact beq_self_eq_true k
  · rw [if_neg hc] at h
    rw [List.mem_append] at h
    rcases h with h | h
    · exfalso
      apply hc
      rw [List.any_eq_true]
      exact ⟨(k, w), h, beq_self_eq_true k⟩
    · rw [List.mem_singleton] at h
      exact congrArg Prod.snd h

theorem lookup_filter_stable (k : String) (p : String × Nat → Bool) :
    ∀ m : List (String × Nat), (∀ w, (k, w) ∈ m → p (k, w) = true) →
      (m.filter p).lookup k = m.lookup k := by
  intro m
  induction m with
  | nil =>
    intro _
    rfl
  | cons a t ih =>
    intro hall
    obtain ⟨a1, a2⟩ := a
    have htall : ∀ w, (k, w) ∈ t → p (k, w) = true :=
      fun w hw => hall w (List.mem_cons_of_mem _ hw)
    by_cases ha : a1 = k
    · subst ha
      have hpa : p (a1, a2) = true := hall a2 (List.mem_cons_self _ _)
      rw [List.filter_cons, if_pos hpa]
      simp only [List.lookup, beq_self_eq_true]
    · have hb2 : (k == a1) = false := beq_eq_false_iff_ne.mpr (Ne.symm ha)
      rw [List.filter_cons]
      by_cases hpa : p (a1, a2) = true
      · rw [if_pos hpa]
        simp only [List.lookup, hb2]
        exact ih htall
      · rw [if_neg hpa]
        simp only [List.lookup, hb2]
        exact ih htall

theorem lookup_stamp_prune (m : List (String × Nat)) (k : String) (now e : Nat) :
    (pruneMap (mapSet m k now) now e).lookup k = some now := by
  have hall : ∀ w, (k, w) ∈ mapSet m k now →
      (fun q : String × Nat => decide (now - q.2 ≤ e)) (k, w) = true := by
    intro w hw
    rw [mapSet_key_val m k now w hw]
    simp
  unfold pruneMap
  rw [lookup_filter_stable k _ (mapSet m k now) hall, lookup_mapSet]

theorem handleRequestBody_recentTabRequests (re : RegexTester)
    (cm csn : List (String × String)) (rules : List Rule) (st2 : BgState)
    (now : Nat) (tabId : Int) (url tcs : String) (ta : Bool) :
    (handleRequestBody re cm csn rules st2 now tabId url tcs ta).1.recentTabRequests
      = st2.recentTabRequests := by
  simp only [handleRequestBody]
  split
  · rfl
  · split
    · split
      · rfl
      · rfl
    · rfl

theorem handleRequest_stamps (re : RegexTester) (cm csn : List (String × String))
    (rules : List Rule) (st : BgState) (now : Nat) (tabId : Int) (url tcs : String)
    (ta : Bool) (hpriv : isPrivilegedURL url = false) (htab : ¬(tabId = -1))
    (hmiss : dedupHit st.recentTabRequests (toString tabId ++ "-" ++ url) now
        EXPIRY_TAB_REQUEST_MS = false) :
    (handleRequest re cm csn rules st now tabId url tcs ta).1.recentTabRequests.lookup
      (toString tabId ++ "-" ++ url) = some now := by
  unfold handleRequest
  rw [if_neg (by simp [hpriv]), if_neg htab, if_neg (by simp [hmiss]),
    handleRequestBody_recentTabRequests]
  unfold maybePrune
  split
  · exact lookup_stamp_prune st.recentTabRequests (toString tabId ++ "-" ++ url)
      now EXPIRY_TAB_REQUEST_MS
  · exact lookup_mapSet st.recentTabRequests (toString tabId ++ "-" ++ url) now

/-- C9: a navigation event that passes the privileged-URL and tab guards
and is not itself a duplicate stamps the `(tabId, url)` dedup table and
proceeds; delivering the identical event again within the one-second
window returns pass-through with the state unchanged, for every repository
snapshot and tab state of the second delivery — the rules are not even
consulted — so at most the first delivery relocates, and two identical
deliveries produce exactly one relocation side effect. -/
theorem tab_request_dedup (re : RegexTester) (cm csn : List (String × String))
    (rules : List Rule) (st : BgState) (now1 now2 : Nat) (tabId : Int)
    (url tcs : String) (ta : Bool)
    (hpriv : isPrivilegedURL url = false) (htab : ¬(tabId = -1))
    (hmiss : dedupHit st.recentTabRequests (toString tabId ++ "-" ++ url) now1
        EXPIRY_TAB_REQUEST_MS = false)
    (hpos : 0 < now1) (hwin : now2 - now1 < EXPIRY_TAB_REQUEST_MS) :
    ∀ (re2 : RegexTester) (cm2 csn2 : List (String × String)) (rules2 : List Rule)
      (tcs2 : String) (ta2 : Bool),
      handleRequest re2 cm2 csn2 rules2
          (handleRequest re cm csn rules st now1 tabId url tcs ta).1
          now2 tabId url tcs2 ta2
        = ((handleRequest re cm csn rules st now1 tabId url tcs ta).1,
           NavAction.passThrough) := by
  intro re2 cm2 csn2 rules2 tcs2 ta2
  have hstamp := handleRequest_stamps re cm csn rules st now1 tabId url tcs ta
    hpriv htab hmiss
  set S := (handleRequest re cm csn rules st now1 tabId url tcs ta).1 with hS
  have hhit : dedupHit S.recentTabRequests (toString tabId ++ "-" ++ url) now2
      EXPIRY_TAB_REQUEST_MS = true := by
    unfold dedupHit
    rw [hstamp]
    simp [Nat.pos_iff_ne_zero.mp hpos, hwin]
  unfold handleRequest
  rw [if_neg (by simp [hpriv]), if_neg htab, if_pos hhit]

/-- Empty interceptor state used by the C9 witness. -/
def stB0 : BgState :=
  { recentRedirections := [], recentTabRequests := [], recentContainerSwitches := [] }

/-- Rule list of the C9 witness: routes the url to the Work container, so
the first delivery relocates. -/
def rulesC9 : List Rule :=
  [{ containerName := "Work", action := "open", urlPattern := "x", highPriority := false }]

/-- C9 witness: the identical `(tabId 7, url)` event delivered at 100ms and
again at 600ms; the second delivery passes through with no state change. -/
theorem tab_request_dedup_witness :
    handleRequest reNone registryC5 reverseC5 rulesC9
        (handleRequest reNone registryC5 reverseC5 rulesC9 stB0 100 7
          "https://x.test/" "firefox-default" true).1
        600 7 "https://x.test/" "firefox-default" true
      = ((handleRequest reNone registryC5 reverseC5 rulesC9 stB0 100 7
          "https://x.test/" "firefox-default" true).1,
         NavAction.passThrough) :=
  tab_request_dedup reNone registryC5 reverseC5 rulesC9 stB0 100 600 7
    "https://x.test/" "firefox-default" true
    (by decide) (by decide) (by decide) (by decide) (by decide)
    reNone registryC5 reverseC5 rulesC9 "firefox-default" true

end Ctc
